import Mathlib

/-!
Verification of the rtpi-pen self-healing core against its specification.

The Python sources under `src/services/rtpi-healer/scripts/` are shallowly
embedded below:

* `healer.py` — `ContainerFailureTracker` (failure ledger and restart
  backoff) and `RTHealerService._restart_container`;
* `config_validator.py` — `ValidationResult` and the validation checks;
* `config_autorepair.py` — the repair actions, `repair_validation_failures`
  and `run_repair_cycle`.

Wall-clock reads (`datetime.now()`) are made explicit `now` parameters,
filesystem and container-runtime effects become explicit state passing over
small state records, and the randomness of `secrets.token_bytes` /
`secrets.choice` becomes explicit arguments carrying the drawn values.
Python dictionaries are association lists with first-match lookup, where an
update prepends the new binding.
-/

namespace RTPI

/-- Association-list lookup with a default, modelling Python's
`dict.get(key, default)`. -/
def alistGet {α : Type} (l : List (String × α)) (k : String) (d : α) : α :=
  match l.find? (fun p => p.1 == k) with
  | some p => p.2
  | none => d

/-- Association-list lookup modelling Python's `key in dict` /
`dict[key]` pattern: `none` when the key is absent. -/
def alistFind {α : Type} (l : List (String × α)) (k : String) : Option α :=
  match l.find? (fun p => p.1 == k) with
  | some p => some p.2
  | none => none

/-- Association-list update modelling `dict[key] = value`: the new binding
shadows any previous one under first-match lookup. -/
def alistSet {α : Type} (l : List (String × α)) (k : String) (v : α) :
    List (String × α) :=
  (k, v) :: l

theorem alistGet_set_self {α : Type} (l : List (String × α)) (k : String)
    (v d : α) : alistGet (alistSet l k v) k d = v := by
  simp [alistGet, alistSet, List.find?]

theorem alistGet_set_other {α : Type} (l : List (String × α)) (k k' : String)
    (v d : α) (h : k ≠ k') : alistGet (alistSet l k v) k' d = alistGet l k' d := by
  simp [alistGet, alistSet, List.find?, beq_eq_false_iff_ne.mpr h]

theorem alistFind_set_self {α : Type} (l : List (String × α)) (k : String)
    (v : α) : alistFind (alistSet l k v) k = some v := by
  simp [alistFind, alistSet, List.find?]

theorem alistFind_set_other {α : Type} (l : List (String × α)) (k k' : String)
    (v : α) (h : k ≠ k') : alistFind (alistSet l k v) k' = alistFind l k' := by
  simp [alistFind, alistSet, List.find?, beq_eq_false_iff_ne.mpr h]

/-! ### Failure tracker (`healer.py`, class `ContainerFailureTracker`)

Timestamps are integers (seconds); `datetime.now()` becomes the explicit
`now` argument and `timedelta(hours=1)` is 3600 seconds. -/

/-- State of `ContainerFailureTracker.__init__`: four dictionaries, all
initially empty.  `failures` is keyed by the string
`f"{container_name}:{failure_type}"` exactly as in the source. -/
structure ContainerFailureTracker where
  failures : List (String × List Int)
  restart_counts : List (String × Nat)
  last_restart_time : List (String × Int)
  backoff_multipliers : List (String × Nat)
deriving Repr, DecidableEq

/-- The freshly constructed tracker (all dictionaries empty). -/
def initTracker : ContainerFailureTracker := ⟨[], [], [], []⟩

/-- Embedding of `ContainerFailureTracker.record_failure`: append the
current time to the per-key list, then drop events not strictly newer than
`now - 3600` (the source filters `f > hour_ago`). -/
def record_failure (t : ContainerFailureTracker) (container_name failure_type : String)
    (now : Int) : ContainerFailureTracker :=
  let key := container_name ++ ":" ++ failure_type
  let evs := alistGet t.failures key [] ++ [now]
  let hour_ago := now - 3600
  { t with failures := alistSet t.failures key (evs.filter (fun f => hour_ago < f)) }

/-- Embedding of `ContainerFailureTracker.get_failure_count`.  Note that the
source reads `len(self.failures.get(key, []))` without consulting the clock
and without pruning, so the result is independent of when the read happens. -/
def get_failure_count (t : ContainerFailureTracker)
    (container_name failure_type : String) : Nat :=
  (alistGet t.failures (container_name ++ ":" ++ failure_type) []).length

/-- The backoff multiplier observed for a container: the source reads
`self.backoff_multipliers.get(container_name, 1)`. -/
def getMult (t : ContainerFailureTracker) (container_name : String) : Nat :=
  alistGet t.backoff_multipliers container_name 1

/-- Embedding of `ContainerFailureTracker.should_restart`: `backoff` is
`self.backoff_multipliers.get(container_name, 1)` (see `getMult`) and
`min_wait = min(300, backoff * 30)`. -/
def should_restart (t : ContainerFailureTracker) (container_name : String)
    (now : Int) : Bool :=
  match alistFind t.last_restart_time container_name with
  | none => true
  | some last =>
    decide (((min 300 (getMult t container_name * 30) : Nat) : Int) ≤ now - last)

/-- Embedding of `ContainerFailureTracker.record_restart`. -/
def record_restart (t : ContainerFailureTracker) (container_name : String)
    (now : Int) : ContainerFailureTracker :=
  { t with
    last_restart_time := alistSet t.last_restart_time container_name now
    restart_counts := alistSet t.restart_counts container_name
      (alistGet t.restart_counts container_name 0 + 1)
    backoff_multipliers := alistSet t.backoff_multipliers container_name
      (min 8 (alistGet t.backoff_multipliers container_name 1 * 2)) }

/-! ### Tracker operation traces (for the invariants of claim C7) -/

/-- One state-mutating tracker call; `get_failure_count` and
`should_restart` are pure reads and do not change the state. -/
inductive TrackerOp
  | recFailure (container_name failure_type : String) (now : Int)
  | recRestart (container_name : String) (now : Int)
deriving Repr, DecidableEq

/-- Apply one tracker operation. -/
def applyOp (t : ContainerFailureTracker) : TrackerOp → ContainerFailureTracker
  | .recFailure n k now => record_failure t n k now
  | .recRestart n now => record_restart t n now

/-- Run a trace of tracker operations from a given state. -/
def runOps (t : ContainerFailureTracker) (ops : List TrackerOp) :
    ContainerFailureTracker :=
  ops.foldl applyOp t

/-! ### `RTHealerService._restart_container` (`healer.py`)

The docker runtime collaborator is modelled as a probe record carrying the
outcomes of the external calls the method makes, in the order it makes
them: whether `containers.get` finds the container, whether
`_perform_prestart_validation` passes, whether `container.restart()`
raises, and whether the reloaded status is `running`. -/

/-- Outcomes of the runtime collaborator calls made by
`_restart_container`, in source order. -/
structure RestartProbe where
  container_found : Bool
  prestart_ok : Bool
  restart_raises : Bool
  running_after : Bool
deriving Repr, DecidableEq

/-- Embedding of `RTHealerService._restart_container`.  Source order:
`containers.get` (a `NotFound` lands in the catch-all `except` and returns
`False`); the `should_restart` backoff gate; pre-start validation;
`container.restart()` (an exception here is caught before
`record_restart` runs); then `record_restart`, and finally the
reload/status check which only chooses the returned boolean — a
non-`running` status (or an exception during the reload) returns `False`
but leaves the already-updated tracker state in place.  The
`healing_actions` counter of the service object is not modelled. -/
def _restart_container (t : ContainerFailureTracker) (container_name : String)
    (now : Int) (p : RestartProbe) : Bool × ContainerFailureTracker :=
  if ¬ p.container_found then (false, t)
  else if ¬ should_restart t container_name now then (false, t)
  else if ¬ p.prestart_ok then (false, t)
  else if p.restart_raises then (false, t)
  else
    let t := record_restart t container_name now
    if p.running_after then (true, t) else (false, t)

/-- The condition under which `_restart_container` actually issues the
runtime restart call (and therefore reaches `record_restart`). -/
def restartIssued (t : ContainerFailureTracker) (container_name : String)
    (now : Int) (p : RestartProbe) : Bool :=
  p.container_found && should_restart t container_name now && p.prestart_ok
    && !p.restart_raises

/-! ### A small JSON model (for `json.loads` of the Python stdlib)

`config_validator.py` feeds strings to `json.loads` and then inspects the
parsed values.  The fragment below (null, booleans, integers, strings
without escape sequences, arrays, objects) covers every payload the
validator handles; anything else is a parse error, as it would be a
`json.JSONDecodeError` in Python. -/

/-- Parsed JSON values. -/
inductive Json
  | null
  | bool (b : Bool)
  | num (n : Int)
  | str (s : String)
  | arr (xs : List Json)
  | obj (kvs : List (String × Json))

mutual

/-- Structural equality of JSON values, modelling Python's `==` on the
results of `json.loads` (which is structural as well). -/
def Json.beq : Json → Json → Bool
  | .null, .null => true
  | .bool a, .bool b => a == b
  | .num a, .num b => a == b
  | .str a, .str b => a == b
  | .arr xs, .arr ys => Json.beqList xs ys
  | .obj xs, .obj ys => Json.beqKvs xs ys
  | _, _ => false

/-- Elementwise `Json.beq` on lists. -/
def Json.beqList : List Json → List Json → Bool
  | [], [] => true
  | x :: xs, y :: ys => Json.beq x y && Json.beqList xs ys
  | _, _ => false

/-- Elementwise `Json.beq` on object members. -/
def Json.beqKvs : List (String × Json) → List (String × Json) → Bool
  | [], [] => true
  | (k, v) :: xs, (k', v') :: ys => k == k' && Json.beq v v' && Json.beqKvs xs ys
  | _, _ => false

end

instance : BEq Json := ⟨Json.beq⟩

/-- Whitespace as skipped by the JSON grammar. -/
def jsonWs (c : Char) : Bool :=
  c = ' ' ∨ c = '\t' ∨ c = '\n' ∨ c = '\r'

/-- Errors a Python-level call can surface: a `TypeError` escaping the
call, or a `json.JSONDecodeError` (a `ValueError`). -/
inductive PyErr
  | typeError
  | jsonDecodeError (msg : String)
deriving Repr, DecidableEq

/-- A Python value arriving at a validator entry point: the checks are
called dynamically, so non-string arguments are possible. -/
inductive PyVal
  | none
  | str (s : String)
  | int (n : Int)
deriving Repr, DecidableEq

mutual

/-- Fuel-based recursive-descent JSON parser: one value, returning the
remaining input. -/
def parseJsonVal (fuel : Nat) (cs : List Char) : Option (Json × List Char) :=
  match fuel with
  | 0 => Option.none
  | fuel + 1 =>
    match cs.dropWhile jsonWs with
    | 'n' :: 'u' :: 'l' :: 'l' :: rest => some (.null, rest)
    | 't' :: 'r' :: 'u' :: 'e' :: rest => some (.bool true, rest)
    | 'f' :: 'a' :: 'l' :: 's' :: 'e' :: rest => some (.bool false, rest)
    | '"' :: rest =>
      match parseJsonStr rest [] with
      | some (s, rest) => some (.str s, rest)
      | Option.none => Option.none
    | '[' :: rest =>
      match (rest.dropWhile jsonWs) with
      | ']' :: rest => some (.arr [], rest)
      | _ =>
        match parseJsonArr fuel rest [] with
        | some (xs, rest) => some (.arr xs, rest)
        | Option.none => Option.none
    | '-' :: c :: rest =>
      if c.isDigit then
        match parseJsonNum (c :: rest) 0 false with
        | some (n, rest) => some (.num (-n), rest)
        | Option.none => Option.none
      else Option.none
    | c :: rest =>
      if c = '\x7b' then
        match (rest.dropWhile jsonWs) with
        | c' :: rest' =>
          if c' = '\x7d' then some (.obj [], rest')
          else
            match parseJsonObj fuel rest [] with
            | some (kvs, rest) => some (.obj kvs, rest)
            | Option.none => Option.none
        | [] => Option.none
      else if c.isDigit then
        match parseJsonNum (c :: rest) 0 false with
        | some (n, rest) => some (.num n, rest)
        | Option.none => Option.none
      else Option.none
    | [] => Option.none

/-- Parse the body of a JSON string (escape sequences are outside the
modelled fragment and fail the parse). -/
def parseJsonStr (cs : List Char) (acc : List Char) : Option (String × List Char) :=
  match cs with
  | [] => Option.none
  | '"' :: rest => some (String.mk acc.reverse, rest)
  | '\\' :: _ => Option.none
  | c :: rest => parseJsonStr rest (c :: acc)

/-- Parse a nonnegative integer literal; `started` records whether at least
one digit was consumed. -/
def parseJsonNum (cs : List Char) (acc : Int) (started : Bool) :
    Option (Int × List Char) :=
  match cs with
  | c :: rest =>
    if c.isDigit then parseJsonNum rest (acc * 10 + (c.toNat - 48 : Nat)) true
    else if started then some (acc, cs) else Option.none
  | [] => if started then some (acc, cs) else Option.none

/-- Parse the elements of a non-empty JSON array after `[`. -/
def parseJsonArr (fuel : Nat) (cs : List Char) (acc : List Json) :
    Option (List Json × List Char) :=
  match fuel with
  | 0 => Option.none
  | fuel + 1 =>
    match parseJsonVal fuel cs with
    | some (v, rest) =>
      match rest.dropWhile jsonWs with
      | ',' :: rest => parseJsonArr fuel rest (v :: acc)
      | ']' :: rest => some ((v :: acc).reverse, rest)
      | _ => Option.none
    | Option.none => Option.none

/-- Parse the members of a non-empty JSON object after the opening brace. -/
def parseJsonObj (fuel : Nat) (cs : List Char) (acc : List (String × Json)) :
    Option (List (String × Json) × List Char) :=
  match fuel with
  | 0 => Option.none
  | fuel + 1 =>
    match cs.dropWhile jsonWs with
    | '"' :: rest =>
      match parseJsonStr rest [] with
      | some (k, rest) =>
        match rest.dropWhile jsonWs with
        | ':' :: rest =>
          match parseJsonVal fuel rest with
          | some (v, rest) =>
            match rest.dropWhile jsonWs with
            | ',' :: rest => parseJsonObj fuel rest ((k, v) :: acc)
            | c :: rest' =>
              if c = '\x7d' then some (((k, v) :: acc).reverse, rest')
              else Option.none
            | [] => Option.none
          | Option.none => Option.none
        | _ => Option.none
      | Option.none => Option.none
    | _ => Option.none

end

/-- Model of `json.loads` on a string: parse one value and require only
trailing whitespace after it. -/
def json_loads (s : String) : Except String Json :=
  match parseJsonVal (s.length + 1) s.data with
  | some (v, rest) =>
    if (rest.dropWhile jsonWs).isEmpty then .ok v
    else .error "Extra data"
  | Option.none => .error "Expecting value"

/-- Model of `json.loads` applied to an arbitrary Python value: only `str`
(and `bytes`, not modelled) arguments are accepted; anything else raises
`TypeError`. -/
def json_loads_py : PyVal → Except PyErr Json
  | .str s =>
    match json_loads s with
    | .ok v => .ok v
    | .error m => .error (.jsonDecodeError m)
  | _ => .error .typeError

/-! ### Base64 (for `base64.b64encode` / `base64.b64decode(validate=True)`)

Bytes are naturals below 256.  The decoder models
`base64.b64decode(value, validate=True)` on its canonical shapes: any
character outside the standard alphabet is rejected (that is what
`validate=True` adds), the length must be a multiple of four, and `=`
padding may appear only at the very end.  Like Python, the decoder does not
require the discarded low bits of a final partial group to be zero. -/

/-- The standard base64 alphabet in order. -/
def b64alphabet : List Char :=
  ['A', 'B', 'C', 'D', 'E', 'F', 'G', 'H', 'I', 'J', 'K', 'L', 'M',
   'N', 'O', 'P', 'Q', 'R', 'S', 'T', 'U', 'V', 'W', 'X', 'Y', 'Z',
   'a', 'b', 'c', 'd', 'e', 'f', 'g', 'h', 'i', 'j', 'k', 'l', 'm',
   'n', 'o', 'p', 'q', 'r', 's', 't', 'u', 'v', 'w', 'x', 'y', 'z',
   '0', '1', '2', '3', '4', '5', '6', '7', '8', '9', '+', '/']

/-- The alphabet character for a sextet value. -/
def encChar (n : Nat) : Char := b64alphabet.getD n 'A'

/-- The sextet value of an alphabet character, `none` outside the
alphabet. -/
def decChar (c : Char) : Option Nat := b64alphabet.findIdx? (· = c)

/-- Base64-encode a byte list, three bytes to four characters, with `=`
padding on a final partial group. -/
def b64encodeBytes : List Nat → List Char
  | b0 :: b1 :: b2 :: rest =>
    encChar (b0 / 4) :: encChar (b0 % 4 * 16 + b1 / 16) ::
      encChar (b1 % 16 * 4 + b2 / 64) :: encChar (b2 % 64) :: b64encodeBytes rest
  | [b0, b1] => [encChar (b0 / 4), encChar (b0 % 4 * 16 + b1 / 16),
      encChar (b1 % 16 * 4), '=']
  | [b0] => [encChar (b0 / 4), encChar (b0 % 4 * 16), '=', '=']
  | [] => []

/-- Base64-decode a character list, `none` on a malformed input. -/
def b64decodeBytes : List Char → Option (List Nat)
  | [] => some []
  | c0 :: c1 :: c2 :: c3 :: rest =>
    match decChar c0, decChar c1 with
    | some s0, some s1 =>
      if c2 = '=' then
        if c3 = '=' ∧ rest = [] then some [s0 * 4 + s1 / 16] else none
      else
        match decChar c2 with
        | some s2 =>
          if c3 = '=' then
            if rest = [] then some [s0 * 4 + s1 / 16, s1 % 16 * 16 + s2 / 4]
            else none
          else
            match decChar c3 with
            | some s3 =>
              (b64decodeBytes rest).map
                (fun bs => (s0 * 4 + s1 / 16) :: (s1 % 16 * 16 + s2 / 4) ::
                  (s2 % 4 * 64 + s3) :: bs)
            | none => none
        | none => none
    | _, _ => none
  | _ => none

/-- String-level encoder, as `base64.b64encode(key_bytes).decode('utf-8')`. -/
def b64encodeStr (bs : List Nat) : String := String.mk (b64encodeBytes bs)

/-- String-level decoder, as `base64.b64decode(value, validate=True)`. -/
def b64decodeStr (s : String) : Option (List Nat) := b64decodeBytes s.data

theorem decChar_encChar (n : Nat) (h : n < 64) : decChar (encChar n) = some n := by
  interval_cases n <;> rfl

theorem encChar_ne_eq (n : Nat) (h : n < 64) : (encChar n = '=') = False := by
  interval_cases n <;> simp [encChar, b64alphabet]

/-- Round trip: decoding the encoding of a byte list recovers it.  Stated
with an explicit length bound to drive strong induction in chunks of
three. -/
theorem b64_roundtrip_bounded (n : Nat) :
    ∀ bs : List Nat, bs.length ≤ n → (∀ b ∈ bs, b < 256) →
      b64decodeBytes (b64encodeBytes bs) = some bs := by
  induction n with
  | zero =>
    intro bs hlen _
    have : bs = [] := List.eq_nil_of_length_eq_zero (Nat.le_zero.mp hlen)
    subst this
    rfl
  | succ n ih =>
    intro bs hlen hb
    match bs with
    | [] => rfl
    | [b0] =>
      have h0 : b0 < 256 := hb b0 (by simp)
      have e0 : b0 / 4 < 64 := by omega
      have e1 : b0 % 4 * 16 < 64 := by omega
      have ha : b0 / 4 * 4 + b0 % 4 * 16 / 16 = b0 := by omega
      simp only [b64encodeBytes, b64decodeBytes, decChar_encChar _ e0,
        decChar_encChar _ e1, ha, and_self, if_true]
    | [b0, b1] =>
      have h0 : b0 < 256 := hb b0 (by simp)
      have h1 : b1 < 256 := hb b1 (by simp)
      have e0 : b0 / 4 < 64 := by omega
      have e1 : b0 % 4 * 16 + b1 / 16 < 64 := by omega
      have e2 : b1 % 16 * 4 < 64 := by omega
      have hne : ¬ encChar (b1 % 16 * 4) = '=' :=
        fun h => (encChar_ne_eq _ e2).mp h
      have ha : b0 / 4 * 4 + (b0 % 4 * 16 + b1 / 16) / 16 = b0 := by omega
      have hb2 : (b0 % 4 * 16 + b1 / 16) % 16 * 16 + b1 % 16 * 4 / 4 = b1 := by
        omega
      simp only [b64encodeBytes, b64decodeBytes, decChar_encChar _ e0,
        decChar_encChar _ e1, decChar_encChar _ e2]
      rw [if_neg hne]
      simp only [if_true, ha, hb2]
    | b0 :: b1 :: b2 :: rest =>
      have h0 : b0 < 256 := hb b0 (by simp)
      have h1 : b1 < 256 := hb b1 (by simp)
      have h2 : b2 < 256 := hb b2 (by simp)
      have e0 : b0 / 4 < 64 := by omega
      have e1 : b0 % 4 * 16 + b1 / 16 < 64 := by omega
      have e2 : b1 % 16 * 4 + b2 / 64 < 64 := by omega
      have e3 : b2 % 64 < 64 := by omega
      have hne2 : ¬ encChar (b1 % 16 * 4 + b2 / 64) = '=' :=
        fun h => (encChar_ne_eq _ e2).mp h
      have hne3 : ¬ encChar (b2 % 64) = '=' :=
        fun h => (encChar_ne_eq _ e3).mp h
      have hrest : b64decodeBytes (b64encodeBytes rest) = some rest := by
        refine ih rest (by simp at hlen; omega) ?_
        intro b hbmem
        exact hb b (by simp [hbmem])
      have ha : b0 / 4 * 4 + (b0 % 4 * 16 + b1 / 16) / 16 = b0 := by omega
      have hb2 : (b0 % 4 * 16 + b1 / 16) % 16 * 16 +
          (b1 % 16 * 4 + b2 / 64) / 4 = b1 := by omega
      have hc : (b1 % 16 * 4 + b2 / 64) % 4 * 64 + b2 % 64 = b2 := by omega
      simp only [b64encodeBytes, b64decodeBytes, decChar_encChar _ e0,
        decChar_encChar _ e1, decChar_encChar _ e2, decChar_encChar _ e3]
      rw [if_neg hne2, if_neg hne3, hrest]
      simp only [Option.map_some', ha, hb2, hc]

/-- Round trip without the auxiliary bound. -/
theorem b64_roundtrip (bs : List Nat) (hb : ∀ b ∈ bs, b < 256) :
    b64decodeBytes (b64encodeBytes bs) = some bs :=
  b64_roundtrip_bounded bs.length bs le_rfl hb

/-! ### Validation results (`config_validator.py`, class `ValidationResult`) -/

/-- Embedding of `ValidationResult.__init__`; default arguments as in the
source.  The `timestamp` attribute (a `datetime.now()` read) carries no
validation content and is not modelled. -/
structure ValidationResult where
  passed : Bool
  message : String
  severity : String := "error"
  auto_fixable : Bool := false
  fix_action : Option String := none
deriving Repr, DecidableEq

/-! ### `ConfigurationValidator.validate_base64_encoding` -/

/-- Embedding of `validate_base64_encoding` on a string argument.  The
whole body sits in a `try` with a catch-all `except`, so a
`binascii.Error` from `b64decode(value, validate=True)` becomes the
"invalid base64 encoding" failure result. -/
def validate_base64_encoding (value : String) (field_name : String) :
    ValidationResult :=
  if value = "" then
    { passed := false, message := field_name ++ " is empty",
      auto_fixable := true, fix_action := some "generate_base64_key" }
  else
    match b64decodeStr value with
    | none =>
      { passed := false,
        message := field_name ++ " has invalid base64 encoding",
        auto_fixable := true, fix_action := some "generate_base64_key" }
    | some decoded =>
      if decoded.length < 16 then
        { passed := false,
          message := field_name ++ " base64 decodes to only " ++
            toString decoded.length ++ " bytes (expected 16+)",
          auto_fixable := true, fix_action := some "generate_base64_key" }
      else
        { passed := true,
          message := field_name ++ " has valid base64 encoding (" ++
            toString decoded.length ++ " bytes)" }

/-- Python truthiness of a decoded JSON value, for the `if not value`
check when `validate_base64_encoding` is called on a value taken out of a
parsed document. -/
def jsonFalsy : Json → Bool
  | .null => true
  | .bool b => !b
  | .num n => n == 0
  | .str s => s == ""
  | .arr xs => xs.isEmpty
  | .obj kvs => kvs.isEmpty

/-- Embedding of `validate_base64_encoding` applied to a decoded JSON value (the
dynamic call in `validate_encryption_keys`): a falsy value takes the
"is empty" branch, a non-falsy non-string raises `TypeError` inside
`b64decode`, which the function's own catch-all converts to the
"invalid base64 encoding" failure. -/
def validate_base64_encoding_j (value : Json) (field_name : String) :
    ValidationResult :=
  if jsonFalsy value then
    { passed := false, message := field_name ++ " is empty",
      auto_fixable := true, fix_action := some "generate_base64_key" }
  else
    match value with
    | .str s => validate_base64_encoding s field_name
    | _ =>
      { passed := false,
        message := field_name ++ " has invalid base64 encoding",
        auto_fixable := true, fix_action := some "generate_base64_key" }

/-! ### `ConfigurationValidator.validate_json_structure`

The body catches only `json.JSONDecodeError`; any other exception — in
particular the `TypeError` from `json.loads` on a non-string argument, or
from `key not in data` when the parsed payload does not support
membership — escapes the check.  The embedding therefore returns
`Except PyErr ValidationResult`. -/

/-- Whether a parsed value supports Python's `in` operator: dicts (key
lookup), lists (element search) and strings (substring search) do;
numbers, booleans and `None` raise `TypeError`. -/
def pySupportsIn : Json → Bool
  | .obj _ => true
  | .arr _ => true
  | .str _ => true
  | _ => false

/-- Substring test on character lists. -/
def isSubstrCh (needle : List Char) : List Char → Bool
  | [] => needle.isEmpty
  | c :: rest => needle.isPrefixOf (c :: rest) || isSubstrCh needle rest

/-- Python's `k in data` on a parsed JSON value. -/
def pyIn (k : String) : Json → Except PyErr Bool
  | .obj kvs => .ok (kvs.any (fun p => p.1 == k))
  | .arr xs => .ok (xs.any (fun x => x == .str k))
  | .str s => .ok (isSubstrCh k.data s.data)
  | _ => .error .typeError

/-- The keys of `required_keys` that are *not* members of the payload, in
order — the list comprehension
`[key for key in required_keys if key not in data]`; a `TypeError` from
`in` propagates. -/
def collectMissing (data : Json) : List String → Except PyErr (List String)
  | [] => .ok []
  | k :: ks =>
    match pyIn k data with
    | .error e => .error e
    | .ok b =>
      match collectMissing data ks with
      | .error e => .error e
      | .ok rest => .ok (if b then rest else k :: rest)

/-- Embedding of `validate_json_structure`.  `required_keys = None` (the
default) is rendered as the empty list: both are falsy, and the key loop
is skipped. -/
def validate_json_structure (json_val : PyVal) (field_name : String)
    (required_keys : List String) : Except PyErr ValidationResult :=
  match json_loads_py json_val with
  | .error (.jsonDecodeError msg) =>
    .ok { passed := false,
          message := field_name ++ " has invalid JSON: " ++ msg,
          auto_fixable := true, fix_action := some "fix_json_structure" }
  | .error e => .error e
  | .ok data =>
    if required_keys.isEmpty then
      .ok { passed := true,
            message := field_name ++ " has valid JSON structure" }
    else
      match collectMissing data required_keys with
      | .error e => .error e
      | .ok missing =>
        if missing.isEmpty then
          .ok { passed := true,
                message := field_name ++ " has valid JSON structure" }
        else
          .ok { passed := false,
                message := field_name ++ " missing required keys",
                auto_fixable := true, fix_action := some "fix_json_structure" }

/-! ### `ConfigurationValidator.validate_encryption_keys`

The whole body sits in a `try` with a catch-all `except`, so any raised
error (decode error, `TypeError` on a non-dict entry, ...) becomes the
generic "Failed to validate encryption keys" failure result. -/

/-- The required fields of one encryption-key entry, in source order. -/
def requiredKeyFields : List String := ["id", "key", "cipher", "revoked"]

/-- Python's `key_obj[field]` after `field in key_obj` has succeeded: on a
dict, the stored value; on a string or list (where `in` can also succeed),
a string index raises `TypeError`. -/
def pyGetItem (key_obj : Json) (field : String) : Except PyErr Json :=
  match key_obj with
  | .obj kvs =>
    match kvs.find? (fun p => p.1 == field) with
    | some p => .ok p.2
    | none => .error .typeError
  | _ => .error .typeError

/-- The loop body of `validate_encryption_keys` for entry `i`: `some r`
means the loop returns the failing result `r`; `none` means the entry
passed all three checks and the loop moves on. -/
def checkEntry (i : Nat) (key_obj : Json) :
    Except PyErr (Option ValidationResult) :=
  match collectMissing key_obj requiredKeyFields with
  | .error e => .error e
  | .ok missing =>
    if ¬ missing.isEmpty then
      .ok (some
        { passed := false
          message := "Encryption key " ++ toString i ++ " missing fields"
          auto_fixable := true
          fix_action := some "fix_encryption_key_structure" })
    else
      match pyGetItem key_obj "key" with
      | .error e => .error e
      | .ok keyVal =>
        let key_validation := validate_base64_encoding_j keyVal
          ("Encryption key " ++ toString i)
        if ¬ key_validation.passed then
          .ok (some
            { passed := false
              message := "Encryption key " ++ toString i ++
                " has invalid base64: " ++ key_validation.message
              auto_fixable := true
              fix_action := some "regenerate_encryption_key" })
        else
          match pyGetItem key_obj "cipher" with
          | .error e => .error e
          | .ok cipher =>
            if ¬ (cipher == Json.str "AES-GCM") then
              .ok (some
                { passed := false
                  message := "Encryption key " ++ toString i ++
                    " has unsupported cipher"
                  severity := "warning" })
            else
              .ok none

/-- The `for i, key_obj in enumerate(...)` loop: return the first failing
entry's result, or `none` when every entry passes. -/
def checkEntries (i : Nat) :
    List Json → Except PyErr (Option ValidationResult)
  | [] => .ok none
  | e :: es =>
    match checkEntry i e with
    | .error err => .error err
    | .ok (some r) => .ok (some r)
    | .ok none => checkEntries (i + 1) es

/-- The result `validate_encryption_keys` returns when a raised error
reaches its catch-all `except`. -/
def encKeysGenericFailure : ValidationResult :=
  { passed := false, message := "Failed to validate encryption keys",
    auto_fixable := true, fix_action := some "generate_encryption_keys" }

/-- The result for a payload that is not a non-empty list. -/
def encKeysNotListFailure : ValidationResult :=
  { passed := false, message := "ENCRYPTION_KEYS must be a non-empty list",
    auto_fixable := true, fix_action := some "generate_encryption_keys" }

/-- The body of `validate_encryption_keys` on the parsed payload, before
the catch-all is applied. -/
def validateEncKeysParsed (v : Json) : Except PyErr ValidationResult :=
  match v with
  | .arr entries =>
    if entries.isEmpty then .ok encKeysNotListFailure
    else
      match checkEntries 0 entries with
      | .error e => .error e
      | .ok (some r) => .ok r
      | .ok none =>
        let msg := "All " ++ toString entries.length ++
          " encryption keys are valid"
        .ok { passed := true, message := msg }
  | _ => .ok encKeysNotListFailure

/-- Embedding of `validate_encryption_keys`. -/
def validate_encryption_keys (encryption_keys_str : String) :
    ValidationResult :=
  match json_loads_py (.str encryption_keys_str) with
  | .error _ => encKeysGenericFailure
  | .ok v =>
    match validateEncKeysParsed v with
    | .ok r => r
    | .error _ => encKeysGenericFailure

/-! ### `ConfigurationValidator.run_comprehensive_validation`

The three service-specific collectors (`validate_sysreptor_configuration`,
`validate_kasm_configuration`, `validate_empire_configuration`) read
config files and probe live databases; their result lists are the
collaborator inputs here.  The summary arithmetic (lines 444-456 of
`config_validator.py`) is embedded exactly. -/

/-- The summary dictionary built at the end of
`run_comprehensive_validation`. -/
structure ValidationSummary where
  total_checks : Nat
  passed_checks : Nat
  failed_checks : Nat
  auto_fixable_failures : Nat
  validation_results : List ValidationResult
  overall_status : String
deriving Repr, DecidableEq

/-- Summary computation over the collected result list. -/
def mkValidationSummary (results : List ValidationResult) :
    ValidationSummary :=
  let total_checks := results.length
  let passed_checks := (results.filter (fun r => r.passed)).length
  let failed_checks := total_checks - passed_checks
  let auto_fixable :=
    (results.filter (fun r => ¬ r.passed ∧ r.auto_fixable)).length
  { total_checks := total_checks
    passed_checks := passed_checks
    failed_checks := failed_checks
    auto_fixable_failures := auto_fixable
    validation_results := results
    overall_status := if failed_checks = 0 then "PASS" else "FAIL" }

/-- Embedding of `run_comprehensive_validation`: concatenate the three
collectors' results and summarise. -/
def run_comprehensive_validation (sysreptor_results kasm_results
    empire_results : List ValidationResult) : ValidationSummary :=
  mkValidationSummary (sysreptor_results ++ kasm_results ++ empire_results)

/-! ### Repair engine (`config_autorepair.py`)

`repair_validation_failures` dispatches each failing auto-fixable result
on its fix tag.  The dispatched call (lines 516-574: parameter extraction
from the message plus the filesystem-touching repair function) is the
collaborator boundary, modelled as an outcome oracle; the surrounding
counting and control flow is embedded exactly. -/

/-- Outcome of one dispatched repair call: the repair function returned
`True`, returned a falsy value, or raised (the inner `except`). -/
inductive RepairOutcome
  | success
  | failure
  | raised (msg : String)
deriving Repr, DecidableEq

/-- One entry of `repair_summary['repair_details']`. -/
structure RepairDetail where
  action : String
  message : String
  status : String
  error : Option String := none
deriving Repr, DecidableEq

/-- The `repair_summary` accumulator. -/
structure RepairSummary where
  total_failures : Nat
  attempted_repairs : Nat
  successful_repairs : Nat
  failed_repairs : Nat
  repair_details : List RepairDetail
deriving Repr, DecidableEq

/-- The keys of the `self.repair_actions` table built in
`ConfigurationAutoRepair.__init__`, in source order. -/
def repair_action_keys : List String :=
  ["generate_base64_key", "generate_encryption_keys", "generate_secret_key",
   "create_sysreptor_config", "fix_permissions", "create_from_template",
   "add_missing_env_vars", "populate_empty_env_vars", "repair_config_syntax",
   "fix_json_structure", "regenerate_encryption_key", "initialize_empire_db"]

/-- Guard of the outer `if` in the loop of `repair_validation_failures`:
`not result.passed and result.auto_fixable and result.fix_action` (an
absent or empty tag is falsy). -/
def needsRepair (r : ValidationResult) : Bool :=
  !r.passed && r.auto_fixable &&
    (match r.fix_action with
     | some tag => tag ≠ ""
     | none => false)

/-- One iteration of the loop of `repair_validation_failures`. -/
def repairStep (attempt : ValidationResult → RepairOutcome)
    (s : RepairSummary) (r : ValidationResult) : RepairSummary :=
  if needsRepair r then
    let s := { s with total_failures := s.total_failures + 1 }
    match r.fix_action with
    | some tag =>
      if tag ∈ repair_action_keys then
        let s := { s with attempted_repairs := s.attempted_repairs + 1 }
        match attempt r with
        | .success =>
          { s with
            successful_repairs := s.successful_repairs + 1
            repair_details := s.repair_details ++
              [{ action := tag, message := r.message, status := "SUCCESS" }] }
        | .failure =>
          { s with
            failed_repairs := s.failed_repairs + 1
            repair_details := s.repair_details ++
              [{ action := tag, message := r.message, status := "FAILED" }] }
        | .raised msg =>
          { s with
            failed_repairs := s.failed_repairs + 1
            repair_details := s.repair_details ++
              [{ action := tag, message := r.message, status := "ERROR",
                 error := some msg }] }
      else
        s
    | none => s
  else
    s

/-- Embedding of `repair_validation_failures`: fold the loop over the
result list, starting from the zeroed summary. -/
def repair_validation_failures (attempt : ValidationResult → RepairOutcome)
    (validation_results : List ValidationResult) : RepairSummary :=
  validation_results.foldl (repairStep attempt) ⟨0, 0, 0, 0, []⟩

/-! ### `ConfigurationAutoRepair.run_repair_cycle`

`run_comprehensive_validation` is called twice with the external world
changing in between; the two result lists are the collaborator inputs. -/

/-- Collaborator inputs of one repair cycle: the validator's result list
on the first run, the result list on the post-repair re-run, and the
repair-dispatch outcome oracle. -/
structure CycleWorld where
  first_results : List ValidationResult
  second_results : List ValidationResult
  attempt : ValidationResult → RepairOutcome

/-- The dictionary `run_repair_cycle` returns. -/
structure CycleReport where
  initial_validation : ValidationSummary
  repairs_performed : Option RepairSummary
  post_repair_validation : ValidationSummary
  overall_success : Bool

/-! ### Filesystem model and repair actions (`config_autorepair.py`)

Config files live in an explicit state record.  `datetime.now().strftime`
is the state's `now` string; `chown`/`chmod` shell invocations are logged
as issued commands.  `secrets.token_bytes`, `secrets.choice` and
`uuid.uuid4()` results are explicit arguments. -/

/-- Filesystem-facing state of the `ConfigurationAutoRepair` object plus
its collaborators: file contents by path, the `self.config_backups` list,
the shell commands issued through `_execute_command`, and the current
timestamp string. -/
structure FSState where
  files : List (String × String)
  config_backups : List String
  cmds : List String
  now : String
deriving Repr, DecidableEq

/-- Current content of a path (`none` when `os.path.exists` is false). -/
def fsLookup (fs : FSState) (p : String) : Option String :=
  match fs.files.find? (fun q => q.1 == p) with
  | some q => some q.2
  | none => none

/-- Write a file (create or overwrite). -/
def fsWrite (fs : FSState) (p c : String) : FSState :=
  { fs with files := (p, c) :: fs.files }

/-- Embedding of `_backup_config_file`: no-op returning `None` when the
path does not exist, otherwise copy the file to
`dirname/basename.bak.<timestamp>` (which recombines to
`path ++ ".bak." ++ timestamp`) and append that path to
`self.config_backups`. -/
def _backup_config_file (fs : FSState) (config_path : String) :
    Option String × FSState :=
  match fsLookup fs config_path with
  | none => (none, fs)
  | some content =>
    let backup_path := config_path ++ ".bak." ++ fs.now
    let fs := fsWrite fs backup_path content
    (some backup_path,
      { fs with config_backups := fs.config_backups ++ [backup_path] })

/-- Embedding of `_generate_base64_key`: `secrets.token_bytes(length)` is
the randomness boundary, modelled by passing the drawn bytes. -/
def _generate_base64_key (key_bytes : List Nat) : String :=
  b64encodeStr key_bytes

/-- Embedding of `_generate_encryption_keys`: `json.dumps` of one key
object with a fresh uuid and a fresh 32-byte key, both passed in as the
randomness boundary. -/
def _generate_encryption_keys (key_id key_data : String) : String :=
  "[\x7b\"id\": \"" ++ key_id ++ "\", \"key\": \"" ++ key_data ++
    "\", \"cipher\": \"AES-GCM\", \"revoked\": false\x7d]"

/-- The template path `self.validator.config_templates['sysreptor']`. -/
def sysreptorTemplatePath : String :=
  "/opt/rtpi-pen/configs/rtpi-sysreptor/sysreptor/deploy/app.env.example"

/-- The config content f-string of `_create_sysreptor_config`. -/
def sysreptorConfigContent (now secret_key encryption_keys key_id : String) :
    String :=
  "# SysReptor Configuration\n" ++
  "# Generated automatically by RTPI-PEN Auto-Repair\n" ++
  "# Generated: " ++ now ++ "\n" ++
  "# DO NOT EDIT MANUALLY - Configuration managed by self-healing system\n" ++
  "\n# Security Keys\nSECRET_KEY=" ++ secret_key ++ "\n" ++
  "\n# Database Configuration\nDATABASE_HOST=rtpi-database\n" ++
  "DATABASE_NAME=sysreptor\nDATABASE_USER=sysreptor\n" ++
  "DATABASE_PASSWORD=sysreptorpassword\nDATABASE_PORT=5432\n" ++
  "\n# Encryption Keys\nENCRYPTION_KEYS=" ++ encryption_keys ++ "\n" ++
  "DEFAULT_ENCRYPTION_KEY_ID=" ++ key_id ++ "\n" ++
  "\n# Security and Access\n" ++
  "ALLOWED_HOSTS=sysreptor,0.0.0.0,127.0.0.1,rtpi-pen-dev,localhost\n" ++
  "SECURE_SSL_REDIRECT=off\nUSE_X_FORWARDED_HOST=on\nDEBUG=off\n" ++
  "\n# Redis Configuration\nREDIS_HOST=sysreptor-redis\nREDIS_PORT=6379\n" ++
  "REDIS_INDEX=0\nREDIS_PASSWORD=sysreptorredispassword\n" ++
  "\n# Features and Plugins\nENABLE_PRIVATE_DESIGNS=true\n" ++
  "DISABLE_WEBSOCKETS=true\n" ++
  "ENABLED_PLUGINS=cyberchef,graphqlvoyager,checkthehash\n" ++
  "\n# Performance and Scaling\n" ++
  "CELERY_BROKER_URL=redis://:sysreptorredispassword@sysreptor-redis:6379/0\n" ++
  "CELERY_RESULT_BACKEND=redis://:sysreptorredispassword@sysreptor-redis:6379/0\n"

/-- Embedding of `_create_sysreptor_config`.  The method reads the
template (failing if it is absent), generates a secret key and an
encryption-key structure, writes the config built from its f-string
(the template content itself is read but not used), and issues
`chown`/`chmod`.  Note: the method never calls `_backup_config_file`. -/
def _create_sysreptor_config (fs : FSState) (config_path : String)
    (secret_key key_id key_data : String) : Bool × FSState :=
  match fsLookup fs sysreptorTemplatePath with
  | none => (false, fs)
  | some _template_content =>
    let encryption_keys := _generate_encryption_keys key_id key_data
    let config_content :=
      sysreptorConfigContent fs.now secret_key encryption_keys key_id
    let fs := fsWrite fs config_path config_content
    let fs := { fs with cmds := fs.cmds ++
      ["chown 1000:1000 " ++ config_path, "chmod 644 " ++ config_path] }
    (true, fs)

/-- Whitespace for Python's `str.strip()`. -/
def pyWs (c : Char) : Bool :=
  c = ' ' ∨ c = '\t' ∨ c = '\n' ∨ c = '\r' ∨ c = '\x0b' ∨ c = '\x0c'

/-- Python's `str.strip()`. -/
def pyStrip (s : String) : String :=
  String.mk (((s.data.dropWhile pyWs).reverse.dropWhile pyWs).reverse)

/-- Python's `file.readlines()` / iteration over lines: split after each
newline, keeping the terminator. -/
def pyReadlinesAux : List Char → List Char → List String
  | [], acc => if acc.isEmpty then [] else [String.mk acc.reverse]
  | c :: cs, acc =>
    if c = '\n' then String.mk (acc.reverse ++ ['\n']) :: pyReadlinesAux cs []
    else pyReadlinesAux cs (c :: acc)

/-- Split a file's content into lines with terminators. -/
def pyReadlines (s : String) : List String := pyReadlinesAux s.data []

/-- Python's `line.split('=', 1)`, assuming `'=' in line`. -/
def splitEqOnce (s : String) : String × String :=
  (String.mk (s.data.takeWhile (fun c => c ≠ '=')),
   String.mk ((s.data.dropWhile (fun c => c ≠ '=')).drop 1))

/-- Python's `'=' in line`. -/
def hasEqChar (s : String) : Bool := s.data.any (fun c => c = '=')

/-- The `default_values` table of `_add_missing_env_vars`; the generated
`SECRET_KEY` value is passed in. -/
def add_missing_defaults (generated_secret : String) :
    List (String × String) :=
  [("SECRET_KEY", generated_secret), ("DATABASE_HOST", "rtpi-database"),
   ("DATABASE_NAME", "sysreptor"), ("DATABASE_USER", "sysreptor"),
   ("DATABASE_PASSWORD", "sysreptorpassword"), ("DATABASE_PORT", "5432"),
   ("REDIS_HOST", "sysreptor-redis"), ("REDIS_PORT", "6379"),
   ("REDIS_PASSWORD", "sysreptorredispassword"), ("REDIS_INDEX", "0"),
   ("ALLOWED_HOSTS", "sysreptor,0.0.0.0,127.0.0.1,rtpi-pen-dev,localhost"),
   ("DEBUG", "off"), ("SECURE_SSL_REDIRECT", "off")]

/-- Embedding of `_add_missing_env_vars`: back up, read the existing
content (empty when the file is absent), append the known-default missing
variables under an `# Added by auto-repair` header, and report whether
anything was added. -/
def _add_missing_env_vars (fs : FSState) (config_path : String)
    (missing_vars : List String) (generated_secret : String) :
    Bool × FSState :=
  let fs := (_backup_config_file fs config_path).2
  let existing_content := (fsLookup fs config_path).getD ""
  let defaults := add_missing_defaults generated_secret
  let additions := missing_vars.filterMap (fun v =>
    match defaults.find? (fun p => p.1 == v) with
    | some p => some (v ++ "=" ++ p.2)
    | none => none)
  if additions.isEmpty then (false, fs)
  else
    let content :=
      if existing_content ≠ "" ∧ ¬ existing_content.endsWith "\n" then
        existing_content ++ "\n"
      else existing_content
    let content := content ++ "\n# Added by auto-repair\n" ++
      String.intercalate "\n" additions ++ "\n"
    (true, fsWrite fs config_path content)

/-- The `default_values` table of `_populate_empty_env_vars`; the
generated secret key and encryption-keys string are passed in. -/
def populate_defaults (generated_secret generated_enc_keys : String) :
    List (String × String) :=
  [("SECRET_KEY", generated_secret), ("ENCRYPTION_KEYS", generated_enc_keys),
   ("DATABASE_HOST", "rtpi-database"), ("DATABASE_NAME", "sysreptor"),
   ("DATABASE_USER", "sysreptor"), ("DATABASE_PASSWORD", "sysreptorpassword"),
   ("REDIS_HOST", "sysreptor-redis"),
   ("REDIS_PASSWORD", "sysreptorredispassword")]

/-- One line of the rewrite loop of `_populate_empty_env_vars`. -/
def populateLine (defaults : List (String × String))
    (empty_vars : List String) (line : String) : String :=
  if hasEqChar line ∧ ¬ (pyStrip line).startsWith "#" then
    let kv := splitEqOnce line
    let key := pyStrip kv.1
    let value := pyStrip kv.2
    if key ∈ empty_vars ∧
        (value = "" ∨ value = "\"\"" ∨ value = "\x27\x27") then
      match defaults.find? (fun p => p.1 == key) with
      | some p => key ++ "=" ++ p.2 ++ "\n"
      | none => line
    else line
  else line

/-- Embedding of `_populate_empty_env_vars`: back up, rewrite each
blank-valued targeted line in place with its default, keep every other
line.  A missing file makes `open` raise, which the catch-all turns into
`False`. -/
def _populate_empty_env_vars (fs : FSState) (config_path : String)
    (empty_vars : List String) (generated_secret generated_enc_keys : String) :
    Bool × FSState :=
  let fs := (_backup_config_file fs config_path).2
  match fsLookup fs config_path with
  | none => (false, fs)
  | some content =>
    let defaults := populate_defaults generated_secret generated_enc_keys
    let updated := (pyReadlines content).map
      (populateLine defaults empty_vars)
    (true, fsWrite fs config_path (String.join updated))

/-- One line of the `.env` syntax-repair loop of
` _repair_env_file_syntax`. -/
def repairEnvLine (original_line : String) : String :=
  let line := pyStrip original_line
  if line = "" ∨ line.startsWith "#" then original_line
  else if hasEqChar line then
    let kv := splitEqOnce line
    let key := pyStrip kv.1
    let value := pyStrip kv.2
    let value :=
      if value.startsWith "\"" ∧ ¬ value.endsWith "\"" then value.drop 1
      else if value.startsWith "\x27" ∧ ¬ value.endsWith "\x27" then
        value.drop 1
      else value
    key ++ "=" ++ value ++ "\n"
  else "# " ++ line ++ "\n"

/-- Embedding of ` _repair_env_file_syntax`. -/
def _repair_env_file_syntax (fs : FSState) (config_path : String) :
    Bool × FSState :=
  match fsLookup fs config_path with
  | none => (false, fs)
  | some content =>
    (true, fsWrite fs config_path
      (String.join ((pyReadlines content).map repairEnvLine)))

/-- Outcome of the `yaml.safe_load` / `yaml.dump` round in
` _repair_yaml_file_syntax` — the YAML library is a collaborator. -/
inductive YamlOutcome
  | dumped (new_content : String)
  | parseError
deriving Repr, DecidableEq

/-- Embedding of ` _repair_yaml_file_syntax`, with the YAML library
modelled by an outcome oracle on the file content. -/
def _repair_yaml_file_syntax (fs : FSState) (config_path : String)
    (yamlRound : String → YamlOutcome) : Bool × FSState :=
  match fsLookup fs config_path with
  | none => (false, fs)
  | some content =>
    match yamlRound content with
    | .dumped nc => (true, fsWrite fs config_path nc)
    | .parseError => (false, fs)

/-- Embedding of ` _repair_config_syntax`: back up first, then dispatch on
the file extension. -/
def _repair_config_syntax (fs : FSState) (config_path : String)
    (yamlRound : String → YamlOutcome) : Bool × FSState :=
  let fs := (_backup_config_file fs config_path).2
  if config_path.endsWith ".env" then
    _repair_env_file_syntax fs config_path
  else if config_path.endsWith ".yaml" ∨ config_path.endsWith ".yml" then
    _repair_yaml_file_syntax fs config_path yamlRound
  else (false, fs)

/-- One line of the rewrite loop of `_fix_encryption_keys_json`. -/
def fixEncLine (new_encryption_keys key_id : String) (line : String) :
    String :=
  if line.startsWith "ENCRYPTION_KEYS=" then
    "ENCRYPTION_KEYS=" ++ new_encryption_keys ++ "\n"
  else if line.startsWith "DEFAULT_ENCRYPTION_KEY_ID=" then
    "DEFAULT_ENCRYPTION_KEY_ID=" ++ key_id ++ "\n"
  else line

/-- Embedding of `_fix_encryption_keys_json` (also the body of
`_regenerate_encryption_key`): back up, regenerate the key structure,
rewrite the two lines, append `DEFAULT_ENCRYPTION_KEY_ID` if absent.  A
missing file makes `open` raise, which the catch-all turns into
`False`. -/
def _fix_encryption_keys_json (fs : FSState) (config_path : String)
    (key_id key_data : String) : Bool × FSState :=
  let fs := (_backup_config_file fs config_path).2
  let new_encryption_keys := _generate_encryption_keys key_id key_data
  match fsLookup fs config_path with
  | none => (false, fs)
  | some content =>
    let updated := (pyReadlines content).map
      (fixEncLine new_encryption_keys key_id)
    let updated :=
      if updated.any (fun l => l.startsWith "DEFAULT_ENCRYPTION_KEY_ID=") then
        updated
      else updated ++ ["DEFAULT_ENCRYPTION_KEY_ID=" ++ key_id ++ "\n"]
    (true, fsWrite fs config_path (String.join updated))

/-- Embedding of `run_repair_cycle`. -/
def run_repair_cycle (w : CycleWorld) : CycleReport :=
  let validation_summary := mkValidationSummary w.first_results
  if validation_summary.failed_checks > 0 then
    let repair_summary := repair_validation_failures w.attempt
      validation_summary.validation_results
    let post_repair_validation := mkValidationSummary w.second_results
    { initial_validation := validation_summary
      repairs_performed := some repair_summary
      post_repair_validation := post_repair_validation
      overall_success := post_repair_validation.overall_status == "PASS" }
  else
    { initial_validation := validation_summary
      repairs_performed := none
      post_repair_validation := validation_summary
      overall_success := true }

/-! ## Supporting lemmas about the failure tracker -/

theorem getMult_record_restart_self (t : ContainerFailureTracker)
    (name : String) (now : Int) :
    getMult (record_restart t name now) name = min 8 (getMult t name * 2) := by
  simp [getMult, record_restart, alistGet_set_self]

theorem getMult_record_restart_other (t : ContainerFailureTracker)
    (name name' : String) (now : Int) (h : name ≠ name') :
    getMult (record_restart t name now) name' = getMult t name' := by
  simp [getMult, record_restart, alistGet_set_other _ _ _ _ _ h]

theorem getMult_record_failure (t : ContainerFailureTracker)
    (n k name : String) (now : Int) :
    getMult (record_failure t n k now) name = getMult t name := rfl

/-- The multiplier after applying one recorded-restart step to a value. -/
theorem getMult_applyOp_bounds (t : ContainerFailureTracker)
    (op : TrackerOp) (name : String)
    (h1 : 1 ≤ getMult t name) (h8 : getMult t name ≤ 8) :
    (1 ≤ getMult (applyOp t op) name ∧ getMult (applyOp t op) name ≤ 8) ∧
      getMult t name ≤ getMult (applyOp t op) name := by
  cases op with
  | recFailure n k now =>
    simp [applyOp, getMult_record_failure]
    omega
  | recRestart n now =>
    by_cases hn : n = name
    · subst hn
      simp only [applyOp, getMult_record_restart_self]
      omega
    · simp only [applyOp, getMult_record_restart_other _ _ _ _ hn]
      omega

/-- Multiplier bounds hold in every state reachable from the fresh
tracker. -/
theorem getMult_runOps_bounds (ops : List TrackerOp) (name : String) :
    1 ≤ getMult (runOps initTracker ops) name ∧
      getMult (runOps initTracker ops) name ≤ 8 := by
  suffices h : ∀ (t : ContainerFailureTracker),
      (∀ n, 1 ≤ getMult t n ∧ getMult t n ≤ 8) →
      ∀ n, 1 ≤ getMult (runOps t ops) n ∧ getMult (runOps t ops) n ≤ 8 by
    exact h initTracker (fun n => by simp [getMult, initTracker, alistGet]) name
  induction ops with
  | nil => intro t ht n; exact ht n
  | cons op ops ih =>
    intro t ht n
    refine ih (applyOp t op) (fun n' => ?_) n
    exact (getMult_applyOp_bounds t op n' (ht n').1 (ht n').2).1

/-- Recording a restart stores the current time as the container's last
restart time. -/
theorem lastRestart_record_restart_self (t : ContainerFailureTracker)
    (name : String) (now : Int) :
    alistFind (record_restart t name now).last_restart_time name = some now := by
  simp [record_restart, alistFind_set_self]

/-- The multiplier after a block of consecutive `record_restart` calls for
one container, starting from a multiplier within its invariant range. -/
theorem getMult_restart_block (name : String) :
    ∀ (ts : List Int) (t : ContainerFailureTracker),
      getMult t name ≤ 8 →
      getMult (runOps t (ts.map (TrackerOp.recRestart name))) name =
        min 8 (getMult t name * 2 ^ ts.length) := by
  intro ts
  induction ts with
  | nil =>
    intro t h8
    simp only [List.map_nil, runOps, List.foldl_nil, List.length_nil, pow_zero,
      Nat.mul_one]
    omega
  | cons t0 ts ih =>
    intro t h8
    have step : runOps t ((t0 :: ts).map (TrackerOp.recRestart name)) =
        runOps (record_restart t name t0) (ts.map (TrackerOp.recRestart name)) := by
      simp [runOps, applyOp]
    have h8' : getMult (record_restart t name t0) name ≤ 8 := by
      rw [getMult_record_restart_self]
      omega
    rw [step, ih (record_restart t name t0) h8', getMult_record_restart_self]
    have h2 : (2 : Nat) ^ (t0 :: ts).length = 2 ^ ts.length * 2 := by
      simp [pow_succ]
    rw [h2]
    have hp : 1 ≤ (2 : Nat) ^ ts.length := Nat.one_le_two_pow
    rcases Nat.le_total (getMult t name * 2) 8 with hc | hc
    · rw [Nat.min_eq_right hc]
      congr 1
      ring
    · rw [Nat.min_eq_left hc]
      have ha : 8 ≤ 8 * 2 ^ ts.length := by
        calc (8 : Nat) = 8 * 1 := by ring
        _ ≤ 8 * 2 ^ ts.length := Nat.mul_le_mul_left 8 hp
      have hb : 8 ≤ getMult t name * (2 ^ ts.length * 2) := by
        calc (8 : Nat) ≤ getMult t name * 2 := hc
        _ = getMult t name * 2 * 1 := by ring
        _ ≤ getMult t name * 2 * 2 ^ ts.length := Nat.mul_le_mul_left _ hp
        _ = getMult t name * (2 ^ ts.length * 2) := by ring
      rw [Nat.min_eq_left ha, Nat.min_eq_left hb]

/-! ## Claim theorems -/

/-- Claim C1.  The spec asserts that a `failureCount` read performed more
than one hour after the last recorded event returns 0 ("no event older
than the 1-hour window survives a read").  `get_failure_count` never
consults the clock and never prunes — pruning happens only inside
`record_failure` — so its result is independent of when the read is
performed.  This theorem evaluates the code at the failing input: one
failure recorded at time 0; a read (at any later time, in particular two
hours later) still returns 1, where the claim requires 0.  The method's
own docstring ("Get failure count for a container/type in the last hour")
promises the spec's behaviour, so this is recorded as a code bug. -/
theorem C1_stale_read_returns_stale_count :
    get_failure_count (record_failure initTracker "sysreptor-app" "unhealthy" 0)
      "sysreptor-app" "unhealthy" = 1 := by rfl

/-- Claim C6: `should_restart` is true iff no restart was recorded for the
container, or the elapsed time since the recorded `lastRestartTime` is at
least `min(300, multiplier*30)` seconds; it is false immediately after
`record_restart` and true once time has advanced past that wait.  The
hypothesis `1 ≤ getMult t name` holds in every reachable state (see the
claim C7 theorem). -/
theorem C6_should_restart_backoff_gate (t : ContainerFailureTracker)
    (name : String) (now t2 : Int) (hm : 1 ≤ getMult t name) :
    (should_restart t name now = true ↔
      alistFind t.last_restart_time name = none ∨
        ∃ last, alistFind t.last_restart_time name = some last ∧
          ((min 300 (getMult t name * 30) : Nat) : Int) ≤ now - last)
    ∧ should_restart (record_restart t name now) name now = false
    ∧ (now + ((min 300 (getMult (record_restart t name now) name * 30) : Nat) : Int) ≤ t2 →
        should_restart (record_restart t name now) name t2 = true) := by
  refine ⟨?_, ?_, ?_⟩
  · unfold should_restart
    cases h : alistFind t.last_restart_time name with
    | none => simp
    | some last =>
      simp only [decide_eq_true_eq]
      constructor
      · intro hle
        exact Or.inr ⟨last, rfl, hle⟩
      · rintro (hc | ⟨last', hl, hle⟩)
        · cases hc
        · injection hl with he
          subst he
          exact hle
  · unfold should_restart
    simp only [lastRestart_record_restart_self, getMult_record_restart_self,
      sub_self, decide_eq_false_iff_not]
    have hg : 1 ≤ getMult t name := hm
    intro hle
    omega
  · intro hle
    unfold should_restart
    rw [getMult_record_restart_self] at hle
    simp only [lastRestart_record_restart_self, getMult_record_restart_self,
      decide_eq_true_eq]
    omega

/-- Witness for claim C6: on a fresh tracker (`multiplier = 1`), a restart
recorded at time 0 blocks an immediate restart and admits one at time 400
(the wait is `min(300, 2*30) = 60` seconds). -/
theorem C6_witness :
    should_restart (record_restart initTracker "kasm" 0) "kasm" 0 = false ∧
    should_restart (record_restart initTracker "kasm" 0) "kasm" 400 = true :=
  ⟨(C6_should_restart_backoff_gate initTracker "kasm" 0 400 (by decide)).2.1,
   (C6_should_restart_backoff_gate initTracker "kasm" 0 400 (by decide)).2.2
     (by decide)⟩

/-- Claim C7: after `k` consecutive `record_restart` calls for a container
the observed backoff multiplier equals `min(8, 2^k)`, and over every
operation trace from the fresh tracker the multiplier stays within
`[1, 8]` and never decreases. -/
theorem C7_multiplier_doubling_and_invariant (name : String) (ts : List Int)
    (ops : List TrackerOp) (op : TrackerOp) :
    getMult (runOps initTracker (ts.map (TrackerOp.recRestart name))) name =
      min 8 (2 ^ ts.length)
    ∧ 1 ≤ getMult (runOps initTracker ops) name
    ∧ getMult (runOps initTracker ops) name ≤ 8
    ∧ getMult (runOps initTracker ops) name ≤
        getMult (runOps initTracker (ops ++ [op])) name := by
  refine ⟨?_, (getMult_runOps_bounds ops name).1,
    (getMult_runOps_bounds ops name).2, ?_⟩
  · have h := getMult_restart_block name ts initTracker
      (by simp [getMult, initTracker, alistGet])
    rw [h]
    simp [getMult, initTracker, alistGet]
  · have hstep : runOps initTracker (ops ++ [op]) =
        applyOp (runOps initTracker ops) op := by
      simp [runOps]
    rw [hstep]
    exact (getMult_applyOp_bounds (runOps initTracker ops) op name
      (getMult_runOps_bounds ops name).1 (getMult_runOps_bounds ops name).2).2

/-- Counterexample for claim C8: starting from the fresh tracker, with the
container present, the backoff gate open, pre-start validation passing and
the runtime `restart()` call succeeding, but the container *not* running
afterwards, `_restart_container` reports a failed restart (`False`) and
nevertheless has already updated the BackoffState — the claim requires the
BackoffState to be unchanged on a failed restart. -/
theorem C8_counterexample :
    (_restart_container initTracker "kasm" 0
      ⟨true, true, false, false⟩).1 = false
    ∧ alistFind (_restart_container initTracker "kasm" 0
        ⟨true, true, false, false⟩).2.last_restart_time "kasm" = some 0
    ∧ getMult (_restart_container initTracker "kasm" 0
        ⟨true, true, false, false⟩).2 "kasm" = 2 := by
  refine ⟨rfl, rfl, rfl⟩

/-- Claim C8, amended: the tracker state left by `_restart_container`
equals `record_restart` exactly when the runtime restart call is actually
issued — container found, backoff gate passed, pre-start validation
passed, and `container.restart()` did not raise — regardless of whether
the container subsequently reports `running`; on a skipped, aborted or
raising restart it is unchanged.  In particular a restart that is issued
but whose container does not come back up still advances the backoff
state (and returns `False`). -/
theorem C8_record_restart_on_issue (t : ContainerFailureTracker)
    (name : String) (now : Int) (p : RestartProbe) :
    (_restart_container t name now p).2 =
      (if restartIssued t name now p then record_restart t name now else t)
    ∧ ((_restart_container t name now p).1 = true ↔
        restartIssued t name now p = true ∧ p.running_after = true) := by
  unfold _restart_container restartIssued
  by_cases h1 : p.container_found <;>
    by_cases h2 : should_restart t name now <;>
      by_cases h3 : p.prestart_ok <;>
        by_cases h4 : p.restart_raises <;>
          by_cases h5 : p.running_after <;>
            simp [h1, h2, h3, h4, h5]

/-- Counterexample for claim C2: a cycle whose first validation has two
failing, non-auto-fixable connection checks and whose re-validation has
one — the post-repair failure count (1) is strictly less than the
pre-repair count (2), yet `run_repair_cycle` reports
`overall_success = False` because the re-validation status is not `PASS`.
The claim's "success exactly when strictly less" is therefore false on
the code. -/
theorem C2_counterexample :
    (run_repair_cycle
      { first_results :=
          [{ passed := false, message := "Database connection failed" },
           { passed := false, message := "Redis connection failed" }]
        second_results :=
          [{ passed := false, message := "Database connection failed" }]
        attempt := fun _ => RepairOutcome.failure }).overall_success = false
    ∧ (mkValidationSummary
        [({ passed := false, message := "Database connection failed" } :
          ValidationResult)]).failed_checks <
      (mkValidationSummary
        [{ passed := false, message := "Database connection failed" },
         { passed := false, message := "Redis connection failed" }]).failed_checks := by
  refine ⟨rfl, by decide⟩

/-- Claim C2, amended: `run_repair_cycle` reports overall success exactly
when the post-repair re-validation reports zero failed checks (status
`PASS`); a strict reduction that still leaves failures is not reported as
success, and a cycle whose initial validation has no failures reports
success trivially (its post-repair summary is the initial one, with zero
failures). -/
theorem C2_success_iff_post_failures_zero (w : CycleWorld) :
    (run_repair_cycle w).overall_success = true ↔
      (run_repair_cycle w).post_repair_validation.failed_checks = 0 := by
  unfold run_repair_cycle
  by_cases h : (mkValidationSummary w.first_results).failed_checks > 0
  · simp only [h, if_true]
    unfold mkValidationSummary
    by_cases hz :
        (w.second_results.length -
          (w.second_results.filter (fun r => r.passed)).length) = 0 <;>
      simp [hz]
  · simp only [h, if_false]
    simp only [true_iff]
    omega

/-- On a parsed dictionary the membership loop of
`validate_json_structure` never raises. -/
theorem collectMissing_obj_ok (kvs : List (String × Json)) :
    ∀ ks : List String, ∃ l, collectMissing (.obj kvs) ks = .ok l := by
  intro ks
  induction ks with
  | nil => exact ⟨[], rfl⟩
  | cons k ks ih =>
    obtain ⟨l, hl⟩ := ih
    refine ⟨if kvs.any (fun p => p.1 == k) then l else k :: l, ?_⟩
    simp [collectMissing, pyIn, hl]

/-- Counterexample for claim C3: `validate_json_structure` called on a
non-string payload (`None`) raises `TypeError` out of the check — only
`json.JSONDecodeError` is caught — where the claim requires every check to
return a `ValidationResult` for every input, including non-string
inputs. -/
theorem C3_counterexample :
    validate_json_structure PyVal.none "ENCRYPTION_KEYS" ["id"] =
      Except.error PyErr.typeError := rfl

/-- Claim C3, amended: `validate_json_structure` returns a
`ValidationResult` (never raises) for every *string* input that either
fails to parse — the `json.JSONDecodeError` branch yields a failing
result — or parses to a dictionary; but a non-string input raises
`TypeError` out of the check.  The batch summary of
`run_comprehensive_validation` still covers every collected check:
`total = passed + failed` and the auto-fixable count is the number of
failing auto-fixable results. -/
theorem C3_single_check_totality (s fn : String) (keys : List String)
    (rs : List ValidationResult) :
    (∀ kvs, json_loads s = .ok (.obj kvs) →
      ∃ r, validate_json_structure (.str s) fn keys = .ok r)
    ∧ (∀ msg, json_loads s = .error msg →
      ∃ r, validate_json_structure (.str s) fn keys = .ok r ∧ r.passed = false)
    ∧ validate_json_structure PyVal.none fn keys = .error .typeError
    ∧ (∀ n : Int, validate_json_structure (.int n) fn keys = .error .typeError)
    ∧ (mkValidationSummary rs).total_checks = rs.length
    ∧ (mkValidationSummary rs).passed_checks +
        (mkValidationSummary rs).failed_checks = rs.length
    ∧ (mkValidationSummary rs).auto_fixable_failures =
        (rs.filter (fun r => ¬ r.passed ∧ r.auto_fixable)).length := by
  refine ⟨?_, ?_, rfl, fun n => rfl, rfl, ?_, rfl⟩
  · intro kvs hk
    have hpy : json_loads_py (.str s) = .ok (.obj kvs) := by
      simp [json_loads_py, hk]
    by_cases hke : keys.isEmpty
    · refine ⟨⟨true, fn ++ " has valid JSON structure", "error", false, none⟩, ?_⟩
      simp [validate_json_structure, hpy, hke]
    · obtain ⟨l, hl⟩ := collectMissing_obj_ok kvs keys
      by_cases hle : l.isEmpty
      · refine ⟨⟨true, fn ++ " has valid JSON structure", "error", false, none⟩, ?_⟩
        simp [validate_json_structure, hpy, hke, hl, hle]
      · refine ⟨⟨false, fn ++ " missing required keys", "error", true,
          some "fix_json_structure"⟩, ?_⟩
        simp [validate_json_structure, hpy, hke, hl, hle]
  · intro msg hk
    have hpy : json_loads_py (.str s) = .error (.jsonDecodeError msg) := by
      simp [json_loads_py, hk]
    refine ⟨⟨false, fn ++ " has invalid JSON: " ++ msg, "error", true,
      some "fix_json_structure"⟩, ?_, rfl⟩
    simp [validate_json_structure, hpy]
  · have hf : (rs.filter (fun r => r.passed)).length ≤ rs.length :=
      List.length_filter_le _ _
    simp only [mkValidationSummary]
    omega

/-- Witness for claim C3: a parsed dictionary payload and a malformed
payload both yield a returned `ValidationResult` (the latter failing), per
the amended claim. -/
theorem C3_witness :
    (∃ r, validate_json_structure (PyVal.str "\x7b\"version\": 1\x7d")
      "config" ["version"] = Except.ok r)
    ∧ (∃ r, validate_json_structure (PyVal.str "not json")
      "config" ["version"] = Except.ok r ∧ r.passed = false) :=
  ⟨(C3_single_check_totality "\x7b\"version\": 1\x7d" "config" ["version"] []).1
      [("version", Json.num 1)] (by rfl),
   (C3_single_check_totality "not json" "config" ["version"] []).2.1
      "Expecting value" (by rfl)⟩

/-! ## Claim C4: unknown fix tags in `repair_validation_failures` -/

/-- Increment only the `total_failures` counter of a repair summary. -/
def bumpTotalFailures (s : RepairSummary) : RepairSummary :=
  { s with total_failures := s.total_failures + 1 }

/-- A failing, auto-fixable result whose tag is outside the action table
only bumps `total_failures`. -/
theorem repairStep_unknown_tag (attempt : ValidationResult → RepairOutcome)
    (s : RepairSummary) (r : ValidationResult) (tag : String)
    (h1 : r.passed = false) (h2 : r.auto_fixable = true)
    (h3 : r.fix_action = some tag) (h4 : tag ≠ "")
    (h5 : tag ∉ repair_action_keys) :
    repairStep attempt s r = bumpTotalFailures s := by
  have hnr : needsRepair r = true := by
    simp [needsRepair, h1, h2, h3, h4]
  unfold repairStep bumpTotalFailures
  simp [hnr, h3, h5]

/-- The loop step only ever adds to the counters, so it commutes with
`bumpTotalFailures`. -/
theorem repairStep_bump_comm (attempt : ValidationResult → RepairOutcome)
    (s : RepairSummary) (x : ValidationResult) :
    repairStep attempt (bumpTotalFailures s) x =
      bumpTotalFailures (repairStep attempt s x) := by
  obtain ⟨a, b, c, d, e⟩ := s
  unfold repairStep bumpTotalFailures
  by_cases hx : needsRepair x
  · simp only [hx, if_true]
    cases hfa : x.fix_action with
    | none => rfl
    | some tag =>
      by_cases hm : tag ∈ repair_action_keys
      · simp only [hm, if_true]
        cases attempt x <;> rfl
      · simp [hm]
  · simp [hx]

/-- Folding the loop from a bumped summary bumps the folded summary. -/
theorem foldl_repairStep_bump (attempt : ValidationResult → RepairOutcome)
    (l : List ValidationResult) :
    ∀ s, l.foldl (repairStep attempt) (bumpTotalFailures s) =
      bumpTotalFailures (l.foldl (repairStep attempt) s) := by
  induction l with
  | nil => intro s; rfl
  | cons x l ih =>
    intro s
    simp only [List.foldl_cons, repairStep_bump_comm, ih]

/-- Counterexample for claim C4: a single failing, auto-fixable result
with the unknown tag `"unknown_fix_tag"` is counted in `total_failures`,
but — contrary to the claim — contributes nothing to the failed-repair
count: the unknown-tag branch only logs a warning. -/
theorem C4_counterexample :
    (repair_validation_failures (fun _ => RepairOutcome.failure)
      [⟨false, "corrupted widget", "error", true,
        some "unknown_fix_tag"⟩]).total_failures = 1
    ∧ (repair_validation_failures (fun _ => RepairOutcome.failure)
      [⟨false, "corrupted widget", "error", true,
        some "unknown_fix_tag"⟩]).failed_repairs = 0
    ∧ (repair_validation_failures (fun _ => RepairOutcome.failure)
      [⟨false, "corrupted widget", "error", true,
        some "unknown_fix_tag"⟩]).attempted_repairs = 0 := by
  refine ⟨by decide, by decide, by decide⟩

/-- Claim C4, amended: for a failing, auto-fixable result whose non-empty
fix tag is absent from the repair-action table, `repair_validation_failures`
counts it in `total_failures`, attempts no repair for it, leaves the
failed-repair count (and every other counter and the detail list)
untouched, and processes the remaining results exactly as if the unknown
entry were absent — the cycle does not crash. -/
theorem C4_unknown_tag_only_counted (attempt : ValidationResult → RepairOutcome)
    (pre post : List ValidationResult) (r : ValidationResult) (tag : String)
    (h1 : r.passed = false) (h2 : r.auto_fixable = true)
    (h3 : r.fix_action = some tag) (h4 : tag ≠ "")
    (h5 : tag ∉ repair_action_keys) :
    repair_validation_failures attempt (pre ++ r :: post) =
      bumpTotalFailures (repair_validation_failures attempt (pre ++ post)) := by
  unfold repair_validation_failures
  rw [List.foldl_append, List.foldl_append, List.foldl_cons,
    repairStep_unknown_tag attempt _ r tag h1 h2 h3 h4 h5,
    foldl_repairStep_bump]

/-- Witness for claim C4: with one passing result before it, an unknown
`"mystery_tag"` failure only bumps the total-failure count. -/
theorem C4_witness :
    repair_validation_failures (fun _ => RepairOutcome.failure)
      ([⟨true, "ok", "error", false, none⟩] ++
        ⟨false, "weird", "error", true, some "mystery_tag"⟩ :: []) =
      bumpTotalFailures (repair_validation_failures
        (fun _ => RepairOutcome.failure)
        ([⟨true, "ok", "error", false, none⟩] ++ [])) :=
  C4_unknown_tag_only_counted (fun _ => RepairOutcome.failure)
    [⟨true, "ok", "error", false, none⟩] []
    ⟨false, "weird", "error", true, some "mystery_tag"⟩ "mystery_tag"
    rfl rfl rfl (by decide) (by decide)

/-! ## Claim C5: backups before mutation -/

/-- Backing up an existing file appends the timestamped
backup path to `self.config_backups`. -/
theorem backup_appends (fs : FSState) (path c : String)
    (h : fsLookup fs path = some c) :
    (_backup_config_file fs path).2.config_backups =
      fs.config_backups ++ [path ++ ".bak." ++ fs.now] := by
  simp [_backup_config_file, h, fsWrite]

/-- Backups preserve the timestamp field. -/
theorem backup_now (fs : FSState) (path : String) :
    (_backup_config_file fs path).2.now = fs.now := by
  unfold _backup_config_file
  cases h : fsLookup fs path <;> simp [fsWrite]

/-- The env-file syntax repair never touches the backup list. -/
theorem repair_env_syntax_backups (fs : FSState) (p : String) :
    ( _repair_env_file_syntax fs p).2.config_backups = fs.config_backups := by
  unfold _repair_env_file_syntax
  cases h : fsLookup fs p <;> simp [fsWrite]

/-- The YAML syntax repair never touches the backup list. -/
theorem repair_yaml_syntax_backups (fs : FSState) (p : String)
    (yamlRound : String → YamlOutcome) :
    ( _repair_yaml_file_syntax fs p yamlRound).2.config_backups =
      fs.config_backups := by
  unfold _repair_yaml_file_syntax
  cases h : fsLookup fs p with
  | none => rfl
  | some content => cases hy : yamlRound content <;> simp [h, hy, fsWrite]

/-- Counterexample for claim C5: with the template present and a
pre-existing target config, `_create_sysreptor_config` reports success and
overwrites the target, yet creates no backup — `self.config_backups` stays
empty — where the claim requires a timestamped backup of any pre-existing
target before overwrite. -/
theorem C5_counterexample :
    (_create_sysreptor_config
      ⟨[(sysreptorTemplatePath, "TEMPLATE"),
        ("/opt/rtpi-pen/configs/rtpi-sysreptor/app.env", "OLD")], [], [],
        "20251012-120000"⟩
      "/opt/rtpi-pen/configs/rtpi-sysreptor/app.env" "SK" "ID" "KD").1 = true
    ∧ (_create_sysreptor_config
      ⟨[(sysreptorTemplatePath, "TEMPLATE"),
        ("/opt/rtpi-pen/configs/rtpi-sysreptor/app.env", "OLD")], [], [],
        "20251012-120000"⟩
      "/opt/rtpi-pen/configs/rtpi-sysreptor/app.env" "SK" "ID" "KD").2.config_backups = []
    ∧ fsLookup (_create_sysreptor_config
      ⟨[(sysreptorTemplatePath, "TEMPLATE"),
        ("/opt/rtpi-pen/configs/rtpi-sysreptor/app.env", "OLD")], [], [],
        "20251012-120000"⟩
      "/opt/rtpi-pen/configs/rtpi-sysreptor/app.env" "SK" "ID" "KD").2
      "/opt/rtpi-pen/configs/rtpi-sysreptor/app.env" ≠ some "OLD" := by
  refine ⟨rfl, rfl, by decide⟩

/-- Claim C5, amended: the env-var repair actions
(`_add_missing_env_vars`, `_populate_empty_env_vars`), the syntax repair
(` _repair_config_syntax`) and the encryption-key fix
(`_fix_encryption_keys_json`) each create the timestamped backup
`path + ".bak." + timestamp` of an existing target before mutating it;
the template-creation action `_create_sysreptor_config`, however, never
appends to the backup list — it overwrites any pre-existing target without
a backup. -/
theorem C5_backup_discipline (fs : FSState) (path c : String)
    (h : fsLookup fs path = some c) (mv ev : List String)
    (gs ge ki kd : String) (yamlRound : String → YamlOutcome) :
    (_add_missing_env_vars fs path mv gs).2.config_backups =
      fs.config_backups ++ [path ++ ".bak." ++ fs.now]
    ∧ (_populate_empty_env_vars fs path ev gs ge).2.config_backups =
      fs.config_backups ++ [path ++ ".bak." ++ fs.now]
    ∧ ( _repair_config_syntax fs path yamlRound).2.config_backups =
      fs.config_backups ++ [path ++ ".bak." ++ fs.now]
    ∧ (_fix_encryption_keys_json fs path ki kd).2.config_backups =
      fs.config_backups ++ [path ++ ".bak." ++ fs.now]
    ∧ ∀ sk ki2 kd2,
        (_create_sysreptor_config fs path sk ki2 kd2).2.config_backups =
          fs.config_backups := by
  have hb1 : (_backup_config_file fs path).2.config_backups =
      fs.config_backups ++ [path ++ ".bak." ++ fs.now] :=
    backup_appends fs path c h
  refine ⟨?_, ?_, ?_, ?_, ?_⟩
  · unfold _add_missing_env_vars
    dsimp only
    split <;> simp [hb1, fsWrite]
  · unfold _populate_empty_env_vars
    dsimp only
    cases h2 : fsLookup (_backup_config_file fs path).2 path <;>
      simp [h2, hb1, fsWrite]
  · unfold _repair_config_syntax
    dsimp only
    split
    · rw [repair_env_syntax_backups, hb1]
    · split
      · rw [repair_yaml_syntax_backups, hb1]
      · simp [hb1]
  · unfold _fix_encryption_keys_json
    dsimp only
    cases h2 : fsLookup (_backup_config_file fs path).2 path <;>
      simp [h2, hb1, fsWrite]
  · intro sk ki2 kd2
    unfold _create_sysreptor_config
    cases ht : fsLookup fs sysreptorTemplatePath <;> simp [ht, fsWrite]

/-- Witness for claim C5: on a one-file filesystem, adding a missing
variable first creates the timestamped backup, and the template-creation
action creates none. -/
theorem C5_witness :
    (_add_missing_env_vars
      ⟨[("/cfg/app.env", "A=1\n")], [], [], "20250101-000000"⟩
      "/cfg/app.env" ["REDIS_HOST"] "GEN").2.config_backups =
      [] ++ ["/cfg/app.env" ++ ".bak." ++ "20250101-000000"]
    ∧ (_create_sysreptor_config
      ⟨[("/cfg/app.env", "A=1\n")], [], [], "20250101-000000"⟩
      "/cfg/app.env" "SK" "ID" "KD").2.config_backups = [] :=
  ⟨(C5_backup_discipline
      ⟨[("/cfg/app.env", "A=1\n")], [], [], "20250101-000000"⟩
      "/cfg/app.env" "A=1\n" rfl ["REDIS_HOST"] [] "GEN" "GE" "KI" "KD"
      (fun _ => YamlOutcome.parseError)).1,
   (C5_backup_discipline
      ⟨[("/cfg/app.env", "A=1\n")], [], [], "20250101-000000"⟩
      "/cfg/app.env" "A=1\n" rfl ["REDIS_HOST"] [] "GEN" "GE" "KI" "KD"
      (fun _ => YamlOutcome.parseError)).2.2.2.2 "SK" "ID" "KD"⟩

/-! ## Claim C9: generate-then-validate round trip -/

/-- The encoding of a non-empty byte list is non-empty. -/
theorem b64encodeBytes_ne_nil (bs : List Nat) (h : bs ≠ []) :
    b64encodeBytes bs ≠ [] := by
  match bs with
  | [] => exact absurd rfl h
  | [b0] => simp [b64encodeBytes]
  | [b0, b1] => simp [b64encodeBytes]
  | b0 :: b1 :: b2 :: rest => simp [b64encodeBytes]

/-- Claim C9: for any drawn key bytes of length at least 16 (bytes below
256), the key produced by `_generate_base64_key` decodes under
`base64.b64decode(validate=True)` back to exactly those bytes, and
`validate_base64_encoding` accepts it. -/
theorem C9_generated_key_validates (key_bytes : List Nat) (field_name : String)
    (hb : ∀ b ∈ key_bytes, b < 256) (hlen : 16 ≤ key_bytes.length) :
    b64decodeStr (_generate_base64_key key_bytes) = some key_bytes
    ∧ (validate_base64_encoding (_generate_base64_key key_bytes)
        field_name).passed = true := by
  have hdec : b64decodeStr (_generate_base64_key key_bytes) = some key_bytes := by
    show b64decodeBytes (String.mk (b64encodeBytes key_bytes)).data = _
    exact b64_roundtrip key_bytes hb
  refine ⟨hdec, ?_⟩
  have hne : ¬ (_generate_base64_key key_bytes = "") := by
    intro hcontra
    have hdata : b64encodeBytes key_bytes = [] := congrArg String.data hcontra
    have : key_bytes ≠ [] := by
      intro hnil
      rw [hnil] at hlen
      simp at hlen
    exact b64encodeBytes_ne_nil key_bytes this hdata
  unfold validate_base64_encoding
  rw [if_neg hne]
  simp only [hdec]
  rw [if_neg (by omega : ¬ key_bytes.length < 16)]

/-- Witness for claim C9: the sixteen bytes `0, 1, ..., 15` produce a key
that the validator accepts. -/
theorem C9_witness :
    (validate_base64_encoding (_generate_base64_key (List.range 16))
      "SECRET_VALUE").passed = true :=
  (C9_generated_key_validates (List.range 16) "SECRET_VALUE"
    (by decide) (by decide)).2

/-! ## Claim C10: the encryption-key loop stops at the first failure -/

/-- The key-entry loop returns the failing result of the first failing
entry: entries before it pass, and the suffix after it is irrelevant. -/
theorem checkEntries_first_failure :
    ∀ (pre : List Json) (start : Nat) (e : Json) (suffix : List Json)
      (r : ValidationResult),
      (∀ (i : Nat) (hi : i < pre.length),
        checkEntry (start + i) (pre.get ⟨i, hi⟩) = .ok none) →
      checkEntry (start + pre.length) e = .ok (some r) →
      checkEntries start (pre ++ e :: suffix) = .ok (some r) := by
  intro pre
  induction pre with
  | nil =>
    intro start e suffix r _ hf
    simp only [List.length_nil, Nat.add_zero] at hf
    simp [checkEntries, hf]
  | cons p pre ih =>
    intro start e suffix r hpre hf
    have h0 : checkEntry start p = .ok none := by
      have := hpre 0 (by simp)
      rwa [Nat.add_zero] at this
    have hpre' : ∀ (i : Nat) (hi : i < pre.length),
        checkEntry (start + 1 + i) (pre.get ⟨i, hi⟩) = .ok none := by
      intro i hi
      have := hpre (i + 1) (by simpa using Nat.succ_lt_succ hi)
      rw [show start + (i + 1) = start + 1 + i by omega] at this
      simpa using this
    have hf' : checkEntry (start + 1 + pre.length) e = .ok (some r) := by
      have heq : start + 1 + pre.length = start + (p :: pre).length := by
        simp only [List.length_cons]
        omega
      rw [heq]
      exact hf
    have := ih (start + 1) e suffix r hpre' hf'
    simpa [checkEntries, h0] using this

/-- Claim C10: when the encryption-key payload parses to a list whose
first failing entry (under the per-entry checks, in source order:
required fields, base64 key, cipher) sits after a prefix of passing
entries, `validate_encryption_keys` returns exactly that entry's failure
result, and the loop never examines the entries after it — the result is
identical for every suffix. -/
theorem C10_first_failure_reported (s : String) (pre suffix : List Json)
    (e : Json) (r : ValidationResult)
    (hparse : json_loads_py (.str s) = .ok (.arr (pre ++ e :: suffix)))
    (hpre : ∀ (i : Nat) (hi : i < pre.length),
      checkEntry i (pre.get ⟨i, hi⟩) = .ok none)
    (hfail : checkEntry pre.length e = .ok (some r)) :
    validate_encryption_keys s = r
    ∧ ∀ suffix2, checkEntries 0 (pre ++ e :: suffix2) = .ok (some r) := by
  have hcc : ∀ suffix2, checkEntries 0 (pre ++ e :: suffix2) = .ok (some r) := by
    intro suffix2
    refine checkEntries_first_failure pre 0 e suffix2 r ?_ ?_
    · intro i hi
      rw [Nat.zero_add]
      exact hpre i hi
    · rw [Nat.zero_add]
      exact hfail
  refine ⟨?_, hcc⟩
  have hni : ((pre ++ e :: suffix).isEmpty) = false := by
    simp [List.isEmpty_eq_false_iff_exists_mem]
  simp [validate_encryption_keys, hparse, validateEncKeysParsed, hni, hcc suffix]

set_option maxRecDepth 100000 in
/-- Witness for claim C10: a three-entry key list whose first entry is
fully valid, whose second lacks the `key`, `cipher` and `revoked` fields,
and whose third is also invalid — the validator reports exactly the
second entry's missing-fields failure. -/
theorem C10_witness :
    validate_encryption_keys
      "[\x7b\"id\":\"a\",\"key\":\"VGhpcyBpcyBhIDMyLWJ5dGUga2V5IGZvciBBRVMtMjU2IGVuY3J5cHRpb24h\",\"cipher\":\"AES-GCM\",\"revoked\":false\x7d,\x7b\"id\":\"b\"\x7d,\x7b\"id\":\"c\"\x7d]" =
      ⟨false, "Encryption key 1 missing fields", "error", true,
        some "fix_encryption_key_structure"⟩ :=
  (C10_first_failure_reported
    "[\x7b\"id\":\"a\",\"key\":\"VGhpcyBpcyBhIDMyLWJ5dGUga2V5IGZvciBBRVMtMjU2IGVuY3J5cHRpb24h\",\"cipher\":\"AES-GCM\",\"revoked\":false\x7d,\x7b\"id\":\"b\"\x7d,\x7b\"id\":\"c\"\x7d]"
    [Json.obj [("id", Json.str "a"),
      ("key", Json.str
        "VGhpcyBpcyBhIDMyLWJ5dGUga2V5IGZvciBBRVMtMjU2IGVuY3J5cHRpb24h"),
      ("cipher", Json.str "AES-GCM"), ("revoked", Json.bool false)]]
    [Json.obj [("id", Json.str "c")]]
    (Json.obj [("id", Json.str "b")])
    ⟨false, "Encryption key 1 missing fields", "error", true,
      some "fix_encryption_key_structure"⟩
    (by rfl)
    (by
      intro i hi
      have hz : i = 0 := by
        simp only [List.length_cons, List.length_nil] at hi
        omega
      subst hz
      rfl)
    (by rfl)).1

end RTPI
